import Mathlib

set_option maxHeartbeats 1000000

/-!
Shallow embedding of cpp_core/src/gaussian_pruner.cpp: a 3D-Gaussian-splat
pruner that loads a PLY "vertex" element, keeps the records whose
sigmoid-transformed opacity logit exceeds a threshold, gathers every property
column at the retained indices, and writes the compacted table. Float
arithmetic is idealized over the reals; the happly table operations the
program calls (the header is not in the source tree) are modelled from the
specification's PropertyTable description.
-/

/-- Sigmoid from gaussian_pruner.cpp lines 9-11: convert a stored logit to an
opacity probability, 1 / (1 + exp (-x)). -/
noncomputable def sigmoid (x : ℝ) : ℝ := 1 / (1 + Real.exp (-x))

/-- A PLY element as the program uses it: a record count and the ordered list
of named float property columns. -/
structure Element where
  count : ℕ
  props : List (String × List ℝ)

/-- Modelled from the spec: happly.h is absent from the source tree; section
4.1 says property_names returns the exact declared insertion order. -/
def Element.getPropertyNames (e : Element) : List String := e.props.map Prod.fst

/-- Modelled from the spec: column lookup by name, first matching column. -/
def Element.getProperty (e : Element) (name : String) : List ℝ :=
  match e.props.find? (fun p => p.1 == name) with
  | some p => p.2
  | none => []

/-- Modelled from the spec: adding a column appends it whole, keeping
insertion order; the record count is unchanged. -/
def Element.addProperty (e : Element) (name : String) (data : List ℝ) : Element :=
  ⟨e.count, e.props ++ [(name, data)]⟩

/-- A PLY asset: the ordered list of named elements (record types). -/
structure PLYData where
  elements : List (String × Element)

/-- Modelled from the spec: a freshly constructed asset holds no elements. -/
def PLYData.empty : PLYData := ⟨[]⟩

/-- Modelled from the spec: addElement registers a new record type with its
record count and no columns yet. -/
def PLYData.addElement (p : PLYData) (name : String) (count : ℕ) : PLYData :=
  ⟨p.elements ++ [(name, ⟨count, []⟩)]⟩

/-- Modelled from the spec: getElement looks a record type up by name. -/
def PLYData.getElement (p : PLYData) (name : String) : Element :=
  match p.elements.find? (fun q => q.1 == name) with
  | some q => q.2
  | none => ⟨0, []⟩

/-- In C++ getElement returns a mutable reference; a statement that mutates the
returned element is modelled by rebuilding the asset with that element updated. -/
def PLYData.modifyElement (p : PLYData) (name : String) (f : Element → Element) : PLYData :=
  ⟨p.elements.map (fun q => if q.1 == name then (q.1, f q.2) else q)⟩

/-- Selection loop, gaussian_pruner.cpp lines 37-41: collect, in ascending
order, every index i below num_original with sigmoid (opacities[i]) > threshold. -/
noncomputable def validIndices (opacities : List ℝ) (num_original : ℕ) (threshold : ℝ) :
    List ℕ :=
  (List.range num_original).filter (fun i => decide (sigmoid (opacities.getD i 0) > threshold))

/-- Gather loop, lines 56-58: the j-th output value is old_data[valid_indices[j]]. -/
def gather (old_data : List ℝ) (valid_indices : List ℕ) : List ℝ :=
  valid_indices.map (fun idx => old_data.getD idx 0)

/-- Compression-rate expression of line 45,
(1.0f - (float) num_optimized / num_original) * 100.0f. When num_original = 0
the float division has a zero divisor and yields no real number (0/0 is IEEE
NaN, n/0 an infinity, and both propagate through the remaining arithmetic);
that case is modelled as none. -/
noncomputable def compressionRate (num_optimized num_original : ℕ) : Option ℝ :=
  if num_original = 0 then none
  else some ((1 - (num_optimized : ℝ) / (num_original : ℝ)) * 100)

/-- Mutable state of main during the rebuild phase: the loaded input asset and
the output asset under construction. The C++ reference vElement aliases the
vertex element inside plyIn, so every use of it is modelled as a fresh read of
plyIn.getElement "vertex" from the current state. -/
structure MainState where
  plyIn : PLYData
  plyOut : PLYData

/-- Property copy loop, lines 52-60: for each property name of the input vertex
element, gather the retained rows of that input column and append the new
column to the output vertex element. -/
def copyLoop (valid_indices : List ℕ) (names : List String) (s : MainState) : MainState :=
  match names with
  | [] => s
  | prop_name :: rest =>
      copyLoop valid_indices rest
        ⟨s.plyIn,
         s.plyOut.modifyElement "vertex"
           (fun e => e.addProperty prop_name
             (gather ((s.plyIn.getElement "vertex").getProperty prop_name) valid_indices))⟩

/-- Core of main (lines 26-60) after CLI parsing, with console and disk I/O
stripped: read the vertex element, compute the mask from the opacity column,
create the output vertex element, and run the copy loop. Returns the final
program state, input asset included. -/
noncomputable def runPipelineS (plyIn : PLYData) (threshold : ℝ) : MainState :=
  let vElement := plyIn.getElement "vertex"
  let valid_indices := validIndices (vElement.getProperty "opacity") vElement.count threshold
  copyLoop valid_indices vElement.getPropertyNames
    ⟨plyIn, PLYData.empty.addElement "vertex" valid_indices.length⟩

/-- The selection mask main computes, as a function of the whole input asset. -/
noncomputable def computeMask (plyIn : PLYData) (threshold : ℝ) : List ℕ :=
  validIndices ((plyIn.getElement "vertex").getProperty "opacity")
    (plyIn.getElement "vertex").count threshold

/-- The output asset plyOut as it stands at the end of main. -/
noncomputable def runPipeline (plyIn : PLYData) (threshold : ℝ) : PLYData :=
  (runPipelineS plyIn threshold).plyOut

/-- Outcome of the CLI prologue of main (lines 15-22). -/
inductive CLIOutcome where
  | usageError : CLIOutcome
  | uncaughtException : CLIOutcome
  | run : ℝ → CLIOutcome

/-- CLI prologue, lines 15-22. argv is the whole argument vector, program name
included. stof models std::stof: none when no conversion can be performed, the
case in which the C++ call throws std::invalid_argument that main never
catches, so the process terminates abnormally without reaching the usage
branch. -/
def parseCLI (argv : List String) (stof : String → Option ℝ) : CLIOutcome :=
  if argv.length < 3 then CLIOutcome.usageError
  else if 3 < argv.length then
    match stof (argv.getD 3 "") with
    | some t => CLIOutcome.run t
    | none => CLIOutcome.uncaughtException
  else CLIOutcome.run 0.05

/-- One-record test asset: a vertex element with a single opacity column. -/
def T1 : PLYData := ⟨[("vertex", ⟨1, [("opacity", [0])]⟩)]⟩

/-- Zero-record test asset with two declared properties. -/
def T0 : PLYData := ⟨[("vertex", ⟨0, [("opacity", []), ("x", [])]⟩)]⟩

/-- Five-record scenario asset with opacity logits -10, -3, 0, 3, 10. -/
def T7 : PLYData := ⟨[("vertex", ⟨5, [("opacity", [-10, -3, 0, 3, 10])]⟩)]⟩

/-- Test asset sharing its opacity column with T8b but not its x column. -/
def T8a : PLYData := ⟨[("vertex", ⟨1, [("opacity", [0]), ("x", [1])]⟩)]⟩

/-- Test asset sharing its opacity column with T8a but not its x column. -/
def T8b : PLYData := ⟨[("vertex", ⟨1, [("opacity", [0]), ("x", [2])]⟩)]⟩

/-! Helper lemmas about the embedding. -/

lemma mem_validIndices {opacities : List ℝ} {n : ℕ} {t : ℝ} {i : ℕ} :
    i ∈ validIndices opacities n t ↔ i < n ∧ t < sigmoid (opacities.getD i 0) := by
  simp [validIndices, List.mem_filter, List.mem_range, decide_eq_true_eq]

lemma length_filter_mono {α : Type} (p q : α → Bool) (l : List α)
    (h : ∀ a, p a = true → q a = true) :
    (l.filter p).length ≤ (l.filter q).length := by
  induction l with
  | nil => simp
  | cons a as ih =>
      by_cases hp : p a = true
      · simp [List.filter_cons, hp, h a hp, Nat.succ_le_succ ih]
      · rcases hq : q a with _ | _
        · simpa [List.filter_cons, hp, hq] using ih
        · simp only [List.filter_cons, hp, hq, if_false, if_true]
          exact le_trans ih (Nat.le_succ _)

lemma copyLoop_plyIn (valid_indices : List ℕ) (names : List String) (s : MainState) :
    (copyLoop valid_indices names s).plyIn = s.plyIn := by
  induction names generalizing s with
  | nil => rfl
  | cons n ns ih => exact ih _

lemma modifyElement_single (e : Element) (f : Element → Element) :
    (PLYData.mk [("vertex", e)]).modifyElement "vertex" f = ⟨[("vertex", f e)]⟩ := by
  simp [PLYData.modifyElement]

lemma copyLoop_plyOut (valid_indices : List ℕ) (names : List String) (pin : PLYData)
    (e : Element) :
    (copyLoop valid_indices names ⟨pin, ⟨[("vertex", e)]⟩⟩).plyOut =
      ⟨[("vertex",
        ⟨e.count, e.props ++ names.map
          (fun n => (n, gather ((pin.getElement "vertex").getProperty n) valid_indices))⟩)]⟩ := by
  induction names generalizing e with
  | nil => simp [copyLoop]
  | cons n ns ih =>
      show (copyLoop valid_indices ns
        ⟨pin, (PLYData.mk [("vertex", e)]).modifyElement "vertex" _⟩).plyOut = _
      rw [modifyElement_single]
      rw [ih (e.addProperty n (gather ((pin.getElement "vertex").getProperty n) valid_indices))]
      simp [Element.addProperty]

lemma getElement_single (e : Element) :
    (PLYData.mk [("vertex", e)]).getElement "vertex" = e := by
  simp [PLYData.getElement, List.find?]

lemma runPipelineS_plyOut (plyIn : PLYData) (t : ℝ) :
    (runPipelineS plyIn t).plyOut =
      ⟨[("vertex",
        ⟨(computeMask plyIn t).length,
         (plyIn.getElement "vertex").getPropertyNames.map
           (fun n => (n, gather ((plyIn.getElement "vertex").getProperty n)
             (computeMask plyIn t)))⟩)]⟩ := by
  show (copyLoop _ _ ⟨plyIn, PLYData.empty.addElement "vertex" _⟩).plyOut = _
  rw [show PLYData.empty.addElement "vertex"
        (validIndices ((plyIn.getElement "vertex").getProperty "opacity")
          (plyIn.getElement "vertex").count t).length =
      (⟨[("vertex", ⟨(computeMask plyIn t).length, []⟩)]⟩ : PLYData) from rfl]
  rw [copyLoop_plyOut]
  simp [computeMask]

lemma runPipeline_vertexElement (plyIn : PLYData) (t : ℝ) :
    (runPipeline plyIn t).getElement "vertex" =
      ⟨(computeMask plyIn t).length,
       (plyIn.getElement "vertex").getPropertyNames.map
         (fun n => (n, gather ((plyIn.getElement "vertex").getProperty n)
           (computeMask plyIn t)))⟩ := by
  rw [runPipeline, runPipelineS_plyOut, getElement_single]

lemma getProperty_mapped (k : ℕ) (names : List String) (g : String → List ℝ)
    (name : String) :
    (Element.mk k (names.map (fun n => (n, g n)))).getProperty name =
      if name ∈ names then g name else [] := by
  induction names with
  | nil => simp [Element.getProperty]
  | cons m ms ih =>
      by_cases h : m = name
      · subst h
        simp [Element.getProperty, List.find?]
      · have hb : (m == name) = false := beq_eq_false_iff_ne.mpr h
        have step : (Element.mk k ((m :: ms).map (fun n => (n, g n)))).getProperty name =
            (Element.mk k (ms.map (fun n => (n, g n)))).getProperty name := by
          simp [Element.getProperty, List.find?, hb]
        rw [step, ih]
        simp [List.mem_cons, h, Ne.symm h]

lemma getProperty_eq_nil {e : Element} {name : String}
    (h : name ∉ e.getPropertyNames) : e.getProperty name = [] := by
  unfold Element.getProperty
  cases hf : e.props.find? (fun p => p.1 == name) with
  | none => rfl
  | some p =>
      exfalso
      have hmem : p ∈ e.props := List.mem_of_find?_eq_some hf
      have hpq : (p.1 == name) = true := by
        have h2 := List.find?_some hf
        simpa using h2
      have : p.1 = name := eq_of_beq hpq
      exact h (this ▸ List.mem_map_of_mem Prod.fst hmem)

lemma getD_map_of_lt (f : ℕ → ℝ) (l : List ℕ) (j : ℕ) (hj : j < l.length) :
    (l.map f).getD j 0 = f (l.getD j 0) := by
  induction l generalizing j with
  | nil => exact absurd hj (by simp)
  | cons a as ih =>
      cases j with
      | zero => rfl
      | succ j => exact ih j (Nat.lt_of_succ_lt_succ hj)

lemma sigmoid_pos (x : ℝ) : 0 < sigmoid x := by
  unfold sigmoid
  positivity

lemma one_add_exp_pos (x : ℝ) : (0 : ℝ) < 1 + Real.exp x := by
  positivity

lemma sigmoid_le_of_ge {x : ℝ} (hx : (19 : ℝ) ≤ Real.exp (-x)) : sigmoid x ≤ 1 / 20 := by
  unfold sigmoid
  have h20 : (0 : ℝ) < 20 := by norm_num
  have hle : (20 : ℝ) ≤ 1 + Real.exp (-x) := by linarith
  exact one_div_le_one_div_of_le h20 hle

lemma sigmoid_gt_of_lt {x : ℝ} (hx : Real.exp (-x) < 19) : 1 / 20 < sigmoid x := by
  unfold sigmoid
  have hpos : (0 : ℝ) < 1 + Real.exp (-x) := one_add_exp_pos (-x)
  have hlt : 1 + Real.exp (-x) < 20 := by linarith
  exact one_div_lt_one_div_of_lt hpos hlt

lemma exp_three_ge : (19 : ℝ) ≤ Real.exp 3 := by
  have h27 : (2.7 : ℝ) < Real.exp 1 :=
    lt_trans (by norm_num) Real.exp_one_gt_d9
  have hpos : (0 : ℝ) < Real.exp 1 := Real.exp_pos 1
  have hsplit : Real.exp 3 = Real.exp 1 * Real.exp 1 * Real.exp 1 := by
    rw [← Real.exp_add, ← Real.exp_add]
    norm_num
  nlinarith [h27, hpos, hsplit]

lemma exp_ten_ge : (19 : ℝ) ≤ Real.exp 10 := by
  have h := Real.exp_le_exp.mpr (show (3 : ℝ) ≤ 10 by norm_num)
  linarith [exp_three_ge]

lemma threshold_eq : (0.05 : ℝ) = 1 / 20 := by norm_num

lemma exp_lt_nineteen_of_neg {x : ℝ} (hx : x < 0) : Real.exp x < 19 :=
  lt_trans (Real.exp_lt_one_iff.mpr hx) (by norm_num)

lemma validIndices_T7 :
    validIndices [-10, -3, 0, 3, 10] 5 (0.05 : ℝ) = [2, 3, 4] := by
  have p0 : ¬ ((0.05 : ℝ) < sigmoid (-10)) := by
    rw [not_lt, threshold_eq]
    exact sigmoid_le_of_ge (by rw [neg_neg]; exact exp_ten_ge)
  have p1 : ¬ ((0.05 : ℝ) < sigmoid (-3)) := by
    rw [not_lt, threshold_eq]
    exact sigmoid_le_of_ge (by rw [neg_neg]; exact exp_three_ge)
  have p2 : (0.05 : ℝ) < sigmoid 0 := by
    rw [threshold_eq]
    exact sigmoid_gt_of_lt (by rw [neg_zero, Real.exp_zero]; norm_num)
  have p3 : (0.05 : ℝ) < sigmoid 3 := by
    rw [threshold_eq]
    exact sigmoid_gt_of_lt (exp_lt_nineteen_of_neg (by norm_num))
  have p4 : (0.05 : ℝ) < sigmoid 10 := by
    rw [threshold_eq]
    exact sigmoid_gt_of_lt (exp_lt_nineteen_of_neg (by norm_num))
  unfold validIndices
  rw [show List.range 5 = [0, 1, 2, 3, 4] from rfl]
  simp [List.filter_cons, p0, p1, p2, p3, p4]

lemma validIndices_single_zero : validIndices [0] 1 (0 : ℝ) = [0] := by
  have p : (0 : ℝ) < sigmoid 0 := sigmoid_pos 0
  unfold validIndices
  rw [show List.range 1 = [0] from rfl]
  simp [List.filter_cons, p]

lemma computeMask_T1 : computeMask T1 0 = [0] := validIndices_single_zero

lemma computeMask_T0 (t : ℝ) : computeMask T0 t = [] := rfl

lemma computeMask_T7 : computeMask T7 (0.05 : ℝ) = [2, 3, 4] := validIndices_T7

/-! Claim theorems. -/

/-- C1: for every input table and threshold, the selection mask contains record
index i iff 1 / (1 + e^(-opacity[i])) is strictly greater than the threshold,
and an index whose transformed opacity equals the threshold exactly is dropped. -/
theorem c1_selection_strict_threshold (plyIn : PLYData) (t : ℝ) (i : ℕ) :
    (i ∈ computeMask plyIn t ↔
      i < (plyIn.getElement "vertex").count ∧
        1 / (1 + Real.exp (-(((plyIn.getElement "vertex").getProperty "opacity").getD i 0)))
          > t)
    ∧ (1 / (1 + Real.exp (-(((plyIn.getElement "vertex").getProperty "opacity").getD i 0)))
          = t → i ∉ computeMask plyIn t) := by
  unfold computeMask
  constructor
  · rw [mem_validIndices]
    unfold sigmoid
    exact Iff.rfl
  · intro heq hmem
    have h := (mem_validIndices.mp hmem).2
    unfold sigmoid at h
    rw [heq] at h
    exact lt_irrefl t h

/-- Witness for c1: on the one-record table T1 with threshold 1/2, the sigmoid
of the stored logit 0 equals the threshold exactly and index 0 is dropped. -/
theorem c1_witness : (0 : ℕ) ∉ computeMask T1 (1 / 2) :=
  (c1_selection_strict_threshold T1 (1 / 2) 0).2 (by
    rw [show ((T1.getElement "vertex").getProperty "opacity").getD 0 0 = (0 : ℝ) from rfl,
      neg_zero, Real.exp_zero]
    norm_num)

/-- C2: the output vertex element carries exactly the input's property names in
the same order, and its record count is the length of the selection mask. -/
theorem c2_schema_preserved (plyIn : PLYData) (t : ℝ) :
    ((runPipeline plyIn t).getElement "vertex").getPropertyNames =
      (plyIn.getElement "vertex").getPropertyNames
    ∧ ((runPipeline plyIn t).getElement "vertex").count = (computeMask plyIn t).length := by
  rw [runPipeline_vertexElement]
  constructor
  · simp [Element.getPropertyNames, List.map_map, Function.comp]
  · rfl

/-- C3: for every property, the j-th output entry is the input column at the
j-th mask index, so compaction gathers in mask order and never reorders. -/
theorem c3_compaction_gathers (plyIn : PLYData) (t : ℝ) (name : String) (j : ℕ)
    (hj : j < (computeMask plyIn t).length) :
    (((runPipeline plyIn t).getElement "vertex").getProperty name).getD j 0 =
      ((plyIn.getElement "vertex").getProperty name).getD
        ((computeMask plyIn t).getD j 0) 0 := by
  rw [runPipeline_vertexElement, getProperty_mapped]
  by_cases h : name ∈ (plyIn.getElement "vertex").getPropertyNames
  · rw [if_pos h]
    unfold gather
    exact getD_map_of_lt _ _ j hj
  · rw [if_neg h, getProperty_eq_nil h]
    simp

/-- Witness for c3: on the one-record table T1 with threshold 0, index 0 is in
the mask and the gathered opacity entry matches the input column. -/
theorem c3_witness :
    0 < (computeMask T1 0).length ∧
    (((runPipeline T1 0).getElement "vertex").getProperty "opacity").getD 0 0 =
      ((T1.getElement "vertex").getProperty "opacity").getD
        ((computeMask T1 0).getD 0 0) 0 := by
  constructor
  · rw [computeMask_T1]
    norm_num
  · exact c3_compaction_gathers T1 0 "opacity" 0 (by rw [computeMask_T1]; norm_num)

/-- C4: for a fixed input table, raising the threshold never increases the
number of retained records. -/
theorem c4_threshold_monotone (plyIn : PLYData) (t1 t2 : ℝ) (h : t1 ≤ t2) :
    (computeMask plyIn t2).length ≤ (computeMask plyIn t1).length := by
  unfold computeMask validIndices
  apply length_filter_mono
  intro i hi
  rw [decide_eq_true_eq] at hi ⊢
  exact lt_of_le_of_lt h hi

/-- Witness for c4: thresholds 0 and 1 on the one-record table T1. -/
theorem c4_witness :
    (0 : ℝ) ≤ 1 ∧ (computeMask T1 1).length ≤ (computeMask T1 0).length :=
  ⟨zero_le_one, c4_threshold_monotone T1 0 1 zero_le_one⟩

/-- C5: on a zero-record input the pipeline yields a zero-record output with
the input's property list, but the compression-rate expression divides zero by
zero, so the printed rate is IEEE NaN (modelled none), not zero. -/
theorem c5_empty_table_nan_rate :
    ((runPipeline T0 (0.05 : ℝ)).getElement "vertex").count = 0
    ∧ ((runPipeline T0 (0.05 : ℝ)).getElement "vertex").getPropertyNames =
        (T0.getElement "vertex").getPropertyNames
    ∧ compressionRate (computeMask T0 (0.05 : ℝ)).length (T0.getElement "vertex").count =
        none := by
  refine ⟨?_, ?_, rfl⟩
  · rw [runPipeline_vertexElement]
    rfl
  · rw [runPipeline_vertexElement]
    simp [Element.getPropertyNames, List.map_map, Function.comp]

/-- C6: a present but unparsable third CLI argument makes main terminate with
the uncaught std::stof exception, not with the usage error the spec demands,
while an absent argument does default the threshold to 0.05. -/
theorem c6_unparsable_threshold_aborts :
    parseCLI ["prog", "in.ply", "out.ply", "abc"] (fun _ => none) =
        CLIOutcome.uncaughtException
    ∧ parseCLI ["prog", "in.ply", "out.ply", "abc"] (fun _ => none) ≠
        CLIOutcome.usageError
    ∧ parseCLI ["prog", "in.ply", "out.ply"] (fun _ => none) = CLIOutcome.run 0.05 := by
  refine ⟨rfl, ?_, rfl⟩
  intro h
  rw [show parseCLI ["prog", "in.ply", "out.ply", "abc"] (fun _ => none) =
      CLIOutcome.uncaughtException from rfl] at h
  exact CLIOutcome.noConfusion h

/-- C7: on opacity logits -10, -3, 0, 3, 10 with threshold 0.05 the retained
indices are exactly 2, 3, 4, the output holds 3 records, and the compression
rate evaluates to 40 percent. -/
theorem c7_scenario_five_records :
    computeMask T7 (0.05 : ℝ) = [2, 3, 4]
    ∧ ((runPipeline T7 (0.05 : ℝ)).getElement "vertex").count = 3
    ∧ compressionRate (computeMask T7 (0.05 : ℝ)).length (T7.getElement "vertex").count =
        some 40 := by
  refine ⟨computeMask_T7, ?_, ?_⟩
  · rw [runPipeline_vertexElement]
    show (computeMask T7 (0.05 : ℝ)).length = 3
    rw [computeMask_T7]
    rfl
  · rw [computeMask_T7, show (T7.getElement "vertex").count = 5 from rfl]
    show compressionRate 3 5 = some 40
    unfold compressionRate
    norm_num

/-- C8: the selection mask depends only on the opacity column, the record
count, and the threshold, never on the other property columns. -/
theorem c8_mask_ignores_other_columns (p1 p2 : PLYData) (t : ℝ)
    (hop : (p1.getElement "vertex").getProperty "opacity" =
      (p2.getElement "vertex").getProperty "opacity")
    (hcount : (p1.getElement "vertex").count = (p2.getElement "vertex").count) :
    computeMask p1 t = computeMask p2 t := by
  unfold computeMask
  rw [hop, hcount]

/-- Witness for c8: T8a and T8b share their opacity column and count but differ
in the x column, and their masks at threshold 0 agree. -/
theorem c8_witness :
    (T8a.getElement "vertex").getProperty "opacity" =
      (T8b.getElement "vertex").getProperty "opacity"
    ∧ (T8a.getElement "vertex").count = (T8b.getElement "vertex").count
    ∧ computeMask T8a 0 = computeMask T8b 0 :=
  ⟨rfl, rfl, c8_mask_ignores_other_columns T8a T8b 0 rfl rfl⟩

/-- C9: the output asset holds exactly one element, named vertex, whatever the
input asset held. -/
theorem c9_output_single_vertex (plyIn : PLYData) (t : ℝ) :
    (runPipeline plyIn t).elements.map Prod.fst = ["vertex"] := by
  unfold runPipeline
  rw [runPipelineS_plyOut]
  rfl

/-- C10: after the mask is computed and the output is built, the input asset,
its vertex record count, and every one of its columns are unchanged. -/
theorem c10_input_table_unchanged (plyIn : PLYData) (t : ℝ) :
    (runPipelineS plyIn t).plyIn = plyIn
    ∧ ((runPipelineS plyIn t).plyIn.getElement "vertex").count =
        (plyIn.getElement "vertex").count
    ∧ ∀ name, ((runPipelineS plyIn t).plyIn.getElement "vertex").getProperty name =
        (plyIn.getElement "vertex").getProperty name := by
  have h : (runPipelineS plyIn t).plyIn = plyIn := by
    unfold runPipelineS
    exact copyLoop_plyIn _ _ _
  exact ⟨h, by rw [h], fun name => by rw [h]⟩
